import Mathlib

/-!
Shallow embedding of the supply-status pipeline of
`src/index.js` and `src/services/discord.js`.

Cell values read from the spreadsheet are numbers, strings or booleans
(Google Sheets checkbox cells); the JavaScript floating-point numbers are
modelled as rationals (`ℚ`).  A cell that is empty or absent is modelled
as `Option.none` (the batch read returns no value for an empty cell, and
the source checks `=== null || === undefined`).
-/

deriving instance DecidableEq for Except

namespace SupplyBot

/-- A raw spreadsheet cell value: the JS runtime values the pipeline
distinguishes by `typeof` (number, string, boolean). -/
inductive RawValue where
  | num (q : ℚ)
  | str (s : String)
  | boolean (b : Bool)
deriving DecidableEq

/-- Errors an entity pipeline can abort with.  The source throws
`Error` values with distinct messages; we keep the spec taxonomy.
Both messages thrown by `parseNumericValue` in the source
("Invalid value type" for a non-string non-number and
"Invalid numeric value" for an unparsable string) denote an invalid
required numeric cell and map to `invalidNumericValue`. -/
inductive PipelineError where
  | missingCellData
  | invalidNumericValue
  | nonPositiveConsumption
deriving DecidableEq

/-- JavaScript `Math.max` on two (non-NaN) numbers: the larger one. -/
def mathMax (a b : ℚ) : ℚ :=
  if a ≤ b then b else a

/-- `value.replace(/,/g, "")` from `parseNumericValue`:
remove every comma (thousands separator) from the string. -/
def stripCommas (s : String) : String :=
  String.mk (s.toList.filter (fun c => c ≠ ','))

/-- Numeric value of a list of decimal digit characters. -/
def digitsVal (ds : List Char) : Nat :=
  ds.foldl (fun acc c => acc * 10 + (c.toNat - 48)) 0

/-- An optionally signed run of decimal digits (used for the exponent
of a float literal); `none` when no digit follows. -/
def parseSignedDigits (cs : List Char) : Option Int :=
  match cs with
  | '+' :: rest =>
    let p := rest.span Char.isDigit
    if p.1.isEmpty then none else some (Int.ofNat (digitsVal p.1))
  | '-' :: rest =>
    let p := rest.span Char.isDigit
    if p.1.isEmpty then none else some (-(Int.ofNat (digitsVal p.1)))
  | _ =>
    let p := cs.span Char.isDigit
    if p.1.isEmpty then none else some (Int.ofNat (digitsVal p.1))

/-- Exponent part of a JS float literal.  `parseFloat` takes the longest
valid prefix, so a malformed exponent (`"1e"`, `"1e+"`) is simply
ignored and contributes factor `10 ^ 0`. -/
def parseExponentPart (cs : List Char) : Int :=
  match cs with
  | 'e' :: rest => (parseSignedDigits rest).getD 0
  | 'E' :: rest => (parseSignedDigits rest).getD 0
  | _ => 0

/-- Unsigned mantissa prefix of a JS float literal:
`Digits [. Digits]` or `. Digits`; returns the value and the rest of
the input, or `none` when no digit is found. -/
def parseMantissa (cs : List Char) : Option (ℚ × List Char) :=
  let ip := cs.span Char.isDigit
  match ip.2 with
  | '.' :: rest2 =>
    let fp := rest2.span Char.isDigit
    if ip.1.isEmpty ∧ fp.1.isEmpty then none
    else some ((digitsVal ip.1 : ℚ) + (digitsVal fp.1 : ℚ) / ((10 ^ fp.1.length : ℕ) : ℚ), fp.2)
  | _ => if ip.1.isEmpty then none else some ((digitsVal ip.1 : ℚ), ip.2)

/-- Scale a parsed mantissa by `10 ^ e` for a signed decimal
exponent `e`. -/
def applyExponent (q : ℚ) : Int → ℚ
  | Int.ofNat n => q * ((10 ^ n : ℕ) : ℚ)
  | Int.negSucc n => q / ((10 ^ (n + 1) : ℕ) : ℚ)

/-- JavaScript `parseFloat` on a character list: skip leading
whitespace, optional sign, then the longest decimal-literal prefix;
`none` models the `NaN` result.  `Infinity` literals are outside the
rational embedding and are not modelled. -/
def parseFloatChars (cs : List Char) : Option ℚ :=
  let cs1 := cs.dropWhile Char.isWhitespace
  let signed : Bool × List Char :=
    match cs1 with
    | '-' :: r => (true, r)
    | '+' :: r => (false, r)
    | _ => (false, cs1)
  match parseMantissa signed.2 with
  | none => none
  | some mr =>
    let v := applyExponent mr.1 (parseExponentPart mr.2)
    some (if signed.1 then -v else v)

/-- JavaScript `parseFloat` on a string (`NaN` becomes `none`). -/
def jsParseFloat (s : String) : Option ℚ :=
  parseFloatChars s.toList

/-- `parseNumericValue` from `src/index.js`: a number is returned
as-is; a non-string non-number throws; a string has its commas removed
and is parsed with `parseFloat`, throwing when the result is `NaN`. -/
def parseNumericValue : RawValue → Except PipelineError ℚ
  | RawValue.num q => Except.ok q
  | RawValue.str s =>
    match jsParseFloat (stripCommas s) with
    | some q => Except.ok q
    | none => Except.error PipelineError.invalidNumericValue
  | RawValue.boolean _ => Except.error PipelineError.invalidNumericValue

/-- JavaScript `String.prototype.trim`: drop whitespace from both
ends of the string. -/
def jsTrim (s : String) : String :=
  String.mk (((s.toList.dropWhile Char.isWhitespace).reverse.dropWhile
    Char.isWhitespace).reverse)

/-- JavaScript `String.prototype.toLowerCase`, restricted to the
ASCII letters that occur in the recognized resting markers. -/
def jsToLowerCase (s : String) : String :=
  String.mk (s.toList.map Char.toLower)

/-- The resting evaluator (the IIFE at lines 143–153 of
`src/index.js`): absent cell → false; boolean → identity; string →
membership of the trimmed, lowercased value in true/yes/y/1;
any other value → false. -/
def isRestingOf : Option RawValue → Bool
  | none => false
  | some (RawValue.boolean b) => b
  | some (RawValue.str s) => ["true", "yes", "y", "1"].contains (jsToLowerCase (jsTrim s))
  | some (RawValue.num _) => false

/-- The facts computed by the supply transition
(lines 205–217 of `src/index.js`). -/
structure TransitionResult where
  newSupplies : ℚ
  wasAlreadyZero : Bool
  hitZeroToday : Bool
  consumedToday : ℚ
deriving DecidableEq

/-- The supply state transition of `src/index.js` lines 205–217:
`newSupplyValue`, `suppliesWereZero`, `suppliesHitZero`,
`suppliesConsumedToday`. -/
def transition (isResting : Bool) (currentSuppliesFloat dailyConsumptionFloat : ℚ) :
    TransitionResult :=
  let newSupplyValue : ℚ :=
    if isResting then currentSuppliesFloat
    else mathMax 0 (currentSuppliesFloat - dailyConsumptionFloat)
  { newSupplies := newSupplyValue
    wasAlreadyZero := decide (currentSuppliesFloat = 0)
    hitZeroToday :=
      !isResting && decide (0 < currentSuppliesFloat) && decide (newSupplyValue = 0)
    consumedToday :=
      if isResting then 0 else mathMax 0 (currentSuppliesFloat - newSupplyValue) }

/-- `calculateDaysRemaining` from `src/index.js`: `Math.floor(current / daily)`.
The source first re-runs `parseNumericValue` on its arguments — the
identity here, since the caller passes numbers — and rejects
`daily <= 0`, which the caller has already ruled out. -/
def calculateDaysRemaining (currentSupplies dailyConsumption : ℚ) : Int :=
  Rat.floor (currentSupplies / dailyConsumption)

/-- `getStatusColor` from `src/services/discord.js`. -/
def getStatusColor (daysRemaining : Int) : Nat :=
  if daysRemaining = 0 then 0x8b0000
  else if daysRemaining ≤ 3 then 0xff0000
  else if daysRemaining ≤ 7 then 0xff8c00
  else if daysRemaining ≤ 14 then 0xffff00
  else 0x00ff00

/-- `getStatusEmoji` from `src/services/discord.js`. -/
def getStatusEmoji (daysRemaining : Int) : String :=
  if daysRemaining = 0 then "🚨"
  else if daysRemaining ≤ 3 then "🚨"
  else if daysRemaining ≤ 7 then "⚠️"
  else if daysRemaining ≤ 14 then "⚡"
  else "✅"

/-- The nine optional metric values (raw or already coerced). -/
structure OptionalMetrics where
  ownedAndCarriedLoot : Option RawValue
  paidAndCarriedLoot : Option RawValue
  currentMorale : Option RawValue
  restingMorale : Option RawValue
  armyLength : Option RawValue
  effectiveArmySize : Option RawValue
  forcedMarchDays : Option RawValue
  shippingStatus : Option RawValue
  supplyShipsCount : Option RawValue
deriving DecidableEq

/-- The optional-metric coercion of `src/index.js` lines 254–296:
`raw != null && raw !== "" && !isNaN(parseFloat((raw + "").replace(/,/g, "")))
  ? parseNumericValue(raw) : raw`.
A number stringifies and re-parses to itself, so it is kept; a boolean
stringifies to "true"/"false", which `parseFloat` rejects, so it passes
through; a non-empty string is coerced exactly when its comma-stripped
form parses. -/
def coerceOptionalMetric : Option RawValue → Option RawValue
  | none => none
  | some (RawValue.num q) => some (RawValue.num q)
  | some (RawValue.str s) =>
    if s = "" then some (RawValue.str s)
    else
      match jsParseFloat (stripCommas s) with
      | some q => some (RawValue.num q)
      | none => some (RawValue.str s)
  | some (RawValue.boolean b) => some (RawValue.boolean b)

/-- Which notification shape is sent for the cycle. -/
inductive Variant where
  | normal
  | zeroSupplies
deriving DecidableEq

/-- The data determining the Discord message built by
`sendSupplyStatus` / `sendZeroSupplies`:
variant, title name, embed color, displayed days remaining, the
adjusted carried total, capacity, the over-capacity flag and the
processed optional metrics. -/
structure StatusMessage where
  variant : Variant
  displayName : String
  color : Nat
  daysRemaining : Int
  dailyConsumption : ℚ
  totalCarried : ℚ
  carryingCapacity : ℚ
  overCapacity : Bool
  metrics : OptionalMetrics
deriving DecidableEq

/-- One cycle's externally visible outcome for an entity:
the optional sheet write (the value passed to `updateCellValue`, when
the write happens) and the notification sent. -/
structure EntityOutcome where
  sheetWrite : Option ℚ
  message : StatusMessage
deriving DecidableEq

/-- Lines 205–346 of `src/index.js`, after the four required cells
have been fetched, found present, parsed, and the consumption checked
positive: the transition, the carried-weight adjustment, the
conditional sheet write, the optional-metric coercion and the choice
and contents of the notification. -/
def processParsed (name : String) (isResting : Bool)
    (currentSuppliesFloat dailyConsumptionFloat totalCarried carryingCapacity : ℚ)
    (raws : OptionalMetrics) : EntityOutcome :=
  let t := transition isResting currentSuppliesFloat dailyConsumptionFloat
  let adjustedTotalCarried := mathMax 0 (totalCarried - t.consumedToday)
  let sheetWrite : Option ℚ :=
    if !t.wasAlreadyZero && !isResting then some t.newSupplies else none
  let metrics : OptionalMetrics :=
    { ownedAndCarriedLoot := coerceOptionalMetric raws.ownedAndCarriedLoot
      paidAndCarriedLoot := coerceOptionalMetric raws.paidAndCarriedLoot
      currentMorale := raws.currentMorale
      restingMorale := raws.restingMorale
      armyLength := coerceOptionalMetric raws.armyLength
      effectiveArmySize := coerceOptionalMetric raws.effectiveArmySize
      forcedMarchDays := coerceOptionalMetric raws.forcedMarchDays
      shippingStatus := raws.shippingStatus
      supplyShipsCount := coerceOptionalMetric raws.supplyShipsCount }
  let over := decide (adjustedTotalCarried > carryingCapacity)
  if !isResting && (t.wasAlreadyZero || t.hitZeroToday) then
    { sheetWrite := sheetWrite
      message :=
      { variant := Variant.zeroSupplies
        displayName := name
        color := 0x8b0000
        daysRemaining := 0
        dailyConsumption := dailyConsumptionFloat
        totalCarried := adjustedTotalCarried
        carryingCapacity := carryingCapacity
        overCapacity := over
        metrics := metrics } }
  else
    let daysRemaining := calculateDaysRemaining t.newSupplies dailyConsumptionFloat
    { sheetWrite := sheetWrite
      message :=
      { variant := Variant.normal
        displayName := name ++ (if isResting then " (Resting)" else "")
        color := getStatusColor daysRemaining
        daysRemaining := daysRemaining
        dailyConsumption := dailyConsumptionFloat
        totalCarried := adjustedTotalCarried
        carryingCapacity := carryingCapacity
        overCapacity := over
        metrics := metrics } }

/-- The per-cycle raw input of one entity: the four required cells,
the optional resting cell and the optional metric cells, each holding
a raw value or absent. -/
structure EntityInput where
  currentSuppliesCell : Option RawValue
  dailyConsumptionCell : Option RawValue
  totalCarriedCell : Option RawValue
  currentCarryingCapacityCell : Option RawValue
  restingStatusCell : Option RawValue
  metrics : OptionalMetrics
deriving DecidableEq

/-- The full per-entity pipeline of `src/index.js` lines 104–346:
resting evaluation, the missing-cell checks (lines 162–182, before any
parse), the four `parseNumericValue` calls in source order (first
failure wins), the `dailyConsumption <= 0` check, then the parsed-state
processing.  Each thrown error aborts only this entity. -/
def processEntity (name : String) (inp : EntityInput) :
    Except PipelineError EntityOutcome :=
  let isResting := isRestingOf inp.restingStatusCell
  match inp.currentSuppliesCell, inp.dailyConsumptionCell,
        inp.totalCarriedCell, inp.currentCarryingCapacityCell with
  | some currentSupplies, some dailyConsumption, some totalCarriedRaw,
    some carryingCapacityRaw =>
    match parseNumericValue currentSupplies, parseNumericValue dailyConsumption,
          parseNumericValue totalCarriedRaw, parseNumericValue carryingCapacityRaw with
    | Except.ok currentSuppliesFloat, Except.ok dailyConsumptionFloat,
      Except.ok totalCarried, Except.ok carryingCapacity =>
      if dailyConsumptionFloat ≤ 0 then
        Except.error PipelineError.nonPositiveConsumption
      else
        Except.ok (processParsed name isResting currentSuppliesFloat
          dailyConsumptionFloat totalCarried carryingCapacity inp.metrics)
    | Except.error e, _, _, _ => Except.error e
    | _, Except.error e, _, _ => Except.error e
    | _, _, Except.error e, _ => Except.error e
    | _, _, _, Except.error e => Except.error e
  | _, _, _, _ => Except.error PipelineError.missingCellData

/-- The batch loop of `main` (lines 57–365): each sheet configuration
is processed independently inside its own try/catch; an error is
reported for that entity and the loop continues. -/
def processBatch (entities : List (String × EntityInput)) :
    List (String × Except PipelineError EntityOutcome) :=
  entities.map (fun e => (e.1, processEntity e.1 e.2))

/-- All nine optional metric cells absent. -/
def noMetrics : OptionalMetrics :=
  { ownedAndCarriedLoot := none
    paidAndCarriedLoot := none
    currentMorale := none
    restingMorale := none
    armyLength := none
    effectiveArmySize := none
    forcedMarchDays := none
    shippingStatus := none
    supplyShipsCount := none }

theorem mathMax_eq_max (a b : ℚ) : mathMax a b = max a b := by
  unfold mathMax
  rcases le_or_lt a b with h | h
  · rw [if_pos h, max_eq_right h]
  · rw [if_neg (not_le.mpr h), max_eq_left h.le]

/-- C1: not resting, `previousSupplies ≥ 0`, `dailyConsumption > 0`:
the transition computes `newSupplies = max(0, previousSupplies -
dailyConsumption)`, and `newSupplies ≥ 0` always holds. -/
theorem c1_nonresting_floor (previousSupplies dailyConsumption : ℚ)
    (hp : 0 ≤ previousSupplies) (hd : 0 < dailyConsumption) :
    (transition false previousSupplies dailyConsumption).newSupplies =
      max 0 (previousSupplies - dailyConsumption) ∧
    0 ≤ (transition false previousSupplies dailyConsumption).newSupplies := by
  unfold transition
  simp [mathMax_eq_max]

/-- C1 witness at `previousSupplies = 3`, `dailyConsumption = 5`. -/
theorem c1_nonresting_floor_witness :
    (transition false 3 5).newSupplies = max 0 ((3 : ℚ) - 5) ∧
    0 ≤ (transition false 3 5).newSupplies :=
  c1_nonresting_floor 3 5 (by norm_num) (by norm_num)

/-- C2: resting leaves `newSupplies = previousSupplies`, sets
`consumedToday = 0` and `hitZeroToday = false`, including when
`previousSupplies` is already `0`. -/
theorem c2_resting_identity (previousSupplies dailyConsumption : ℚ)
    (hp : 0 ≤ previousSupplies) (hd : 0 < dailyConsumption) :
    (transition true previousSupplies dailyConsumption).newSupplies = previousSupplies ∧
    (transition true previousSupplies dailyConsumption).consumedToday = 0 ∧
    (transition true previousSupplies dailyConsumption).hitZeroToday = false := by
  unfold transition
  simp

/-- C2 witness at `previousSupplies = 0`, `dailyConsumption = 5`
(the supplies-already-zero case singled out by the claim). -/
theorem c2_resting_identity_witness :
    (transition true 0 5).newSupplies = 0 ∧
    (transition true 0 5).consumedToday = 0 ∧
    (transition true 0 5).hitZeroToday = false :=
  c2_resting_identity 0 5 (by norm_num) (by norm_num)

/-- C5: `hitZeroToday = true` iff `previousSupplies > 0`,
`newSupplies = 0` and the entity is not resting. -/
theorem c5_hit_zero_iff (isResting : Bool) (previousSupplies dailyConsumption : ℚ)
    (hp : 0 ≤ previousSupplies) (hd : 0 < dailyConsumption) :
    (transition isResting previousSupplies dailyConsumption).hitZeroToday = true ↔
      0 < previousSupplies ∧
      (transition isResting previousSupplies dailyConsumption).newSupplies = 0 ∧
      isResting = false := by
  unfold transition
  cases isResting <;> simp

/-- C5 witness at `isResting = false`, `previousSupplies = 3`,
`dailyConsumption = 5`. -/
theorem c5_hit_zero_iff_witness :
    (transition false 3 5).hitZeroToday = true ↔
      (0 : ℚ) < 3 ∧ (transition false 3 5).newSupplies = 0 ∧ false = false :=
  c5_hit_zero_iff false 3 5 (by norm_num) (by norm_num)

/-- C6: for every valid transition, `consumedToday` equals
`previousSupplies - newSupplies` exactly and is never negative. -/
theorem c6_consumption_conservation (isResting : Bool)
    (previousSupplies dailyConsumption : ℚ)
    (hp : 0 ≤ previousSupplies) (hd : 0 < dailyConsumption) :
    (transition isResting previousSupplies dailyConsumption).consumedToday =
      previousSupplies -
        (transition isResting previousSupplies dailyConsumption).newSupplies ∧
    0 ≤ (transition isResting previousSupplies dailyConsumption).consumedToday := by
  unfold transition
  cases isResting
  · simp only [Bool.false_eq_true, if_false, mathMax_eq_max]
    have h1 : max 0 (previousSupplies - dailyConsumption) ≤ previousSupplies :=
      max_le hp (by linarith)
    constructor
    · rw [max_eq_right (by linarith)]
    · rw [max_eq_right (by linarith)]
      linarith
  · simp

/-- C6 witness at `isResting = false`, `previousSupplies = 3`,
`dailyConsumption = 5` (the clamped terminal day). -/
theorem c6_consumption_conservation_witness :
    (transition false 3 5).consumedToday = 3 - (transition false 3 5).newSupplies ∧
    0 ≤ (transition false 3 5).consumedToday :=
  c6_consumption_conservation false 3 5 (by norm_num) (by norm_num)

unseal Rat.sub Rat.add Rat.mul Rat.inv in
/-- C3 counterexample: a resting entity with zero supplies
(`previousSupplies = 0`, `dailyConsumption = 5`) takes the Normal
branch with `daysRemaining = 0`, and the embed color is the
Critical-Zero dark red `0x8b0000` — not the Red `0xff0000` the
"`<= 3` → Red" fallthrough would give if the Critical-Zero case were
skipped while resting.  `getStatusColor` never consults the resting
flag, so "for a resting entity with daysRemaining == 0 the
Critical-Zero case does not apply" is false on the code. -/
theorem c3_counterexample :
    (processParsed "Army" true 0 5 10 20 noMetrics).message.variant = Variant.normal ∧
    (processParsed "Army" true 0 5 10 20 noMetrics).message.daysRemaining = 0 ∧
    (processParsed "Army" true 0 5 10 20 noMetrics).message.color = 0x8b0000 ∧
    ¬ (processParsed "Army" true 0 5 10 20 noMetrics).message.color = 0xff0000 := by
  decide

/-- C3 amended: the severity color is a function of `daysRemaining`
alone — the resting flag never reaches `getStatusColor`, so a resting
entity with `daysRemaining = 0` also gets the Critical-Zero dark red.
For every integer `daysRemaining ≥ 0` exactly one tier applies:
`0` → dark red, `1..3` → red, `4..7` → orange, `8..14` → yellow,
`≥ 15` → green, with the emoji of each tier agreeing with the §6
table; and a Normal-variant report always colors by
`getStatusColor daysRemaining`, resting or not. -/
theorem c3_amended (d : Int) (hd : 0 ≤ d) :
    (getStatusColor d = 0x8b0000 ↔ d = 0) ∧
    (getStatusColor d = 0xff0000 ↔ 1 ≤ d ∧ d ≤ 3) ∧
    (getStatusColor d = 0xff8c00 ↔ 4 ≤ d ∧ d ≤ 7) ∧
    (getStatusColor d = 0xffff00 ↔ 8 ≤ d ∧ d ≤ 14) ∧
    (getStatusColor d = 0x00ff00 ↔ 15 ≤ d) ∧
    (getStatusColor d = 0x8b0000 → getStatusEmoji d = "🚨") ∧
    (getStatusColor d = 0xff0000 → getStatusEmoji d = "🚨") ∧
    (getStatusColor d = 0xff8c00 → getStatusEmoji d = "⚠️") ∧
    (getStatusColor d = 0xffff00 → getStatusEmoji d = "⚡") ∧
    (getStatusColor d = 0x00ff00 → getStatusEmoji d = "✅") ∧
    (∀ (name : String) (isResting : Bool) (p dc tc cc : ℚ) (raws : OptionalMetrics),
      (processParsed name isResting p dc tc cc raws).message.variant = Variant.normal →
      (processParsed name isResting p dc tc cc raws).message.color =
        getStatusColor ((processParsed name isResting p dc tc cc raws).message.daysRemaining)) := by
  refine ⟨?_, ?_, ?_, ?_, ?_, ?_, ?_, ?_, ?_, ?_, ?_⟩
  · unfold getStatusColor; split_ifs <;> simp_all <;> omega
  · unfold getStatusColor; split_ifs <;> simp_all <;> omega
  · unfold getStatusColor; split_ifs <;> simp_all <;> omega
  · unfold getStatusColor; split_ifs <;> simp_all <;> omega
  · unfold getStatusColor; split_ifs <;> simp_all <;> omega
  · unfold getStatusColor getStatusEmoji; split_ifs <;> simp_all
  · unfold getStatusColor getStatusEmoji; split_ifs <;> simp_all
  · unfold getStatusColor getStatusEmoji; split_ifs <;> simp_all
  · unfold getStatusColor getStatusEmoji; split_ifs <;> simp_all
  · unfold getStatusColor getStatusEmoji; split_ifs <;> simp_all
  · intro name isResting p dc tc cc raws
    simp only [processParsed]
    by_cases hc : (!isResting && ((transition isResting p dc).wasAlreadyZero ||
        (transition isResting p dc).hitZeroToday)) = true
    · rw [if_pos hc]
      intro h
      simp at h
    · rw [if_neg hc]
      intro h
      rfl

/-- C3 amended witness at the boundary value `daysRemaining = 14`. -/
theorem c3_amended_witness :
    (getStatusColor 14 = 0x8b0000 ↔ (14 : Int) = 0) ∧
    (getStatusColor 14 = 0xff0000 ↔ (1 : Int) ≤ 14 ∧ (14 : Int) ≤ 3) ∧
    (getStatusColor 14 = 0xff8c00 ↔ (4 : Int) ≤ 14 ∧ (14 : Int) ≤ 7) ∧
    (getStatusColor 14 = 0xffff00 ↔ (8 : Int) ≤ 14 ∧ (14 : Int) ≤ 14) ∧
    (getStatusColor 14 = 0x00ff00 ↔ (15 : Int) ≤ 14) ∧
    (getStatusColor 14 = 0x8b0000 → getStatusEmoji 14 = "🚨") ∧
    (getStatusColor 14 = 0xff0000 → getStatusEmoji 14 = "🚨") ∧
    (getStatusColor 14 = 0xff8c00 → getStatusEmoji 14 = "⚠️") ∧
    (getStatusColor 14 = 0xffff00 → getStatusEmoji 14 = "⚡") ∧
    (getStatusColor 14 = 0x00ff00 → getStatusEmoji 14 = "✅") ∧
    (∀ (name : String) (isResting : Bool) (p dc tc cc : ℚ) (raws : OptionalMetrics),
      (processParsed name isResting p dc tc cc raws).message.variant = Variant.normal →
      (processParsed name isResting p dc tc cc raws).message.color =
        getStatusColor ((processParsed name isResting p dc tc cc raws).message.daysRemaining)) :=
  c3_amended 14 (by norm_num)

/-- C4: the ZeroSupplies variant is emitted iff the entity is not
resting and supplies were already zero or hit zero today; otherwise
the Normal variant is emitted, with the display name suffixed
`" (Resting)"` exactly when resting; in particular a resting entity
with zero supplies gets the Normal variant. -/
theorem c4_variant_selection (name : String) (isResting : Bool)
    (previousSupplies dailyConsumption totalCarried carryingCapacity : ℚ)
    (raws : OptionalMetrics)
    (hp : 0 ≤ previousSupplies) (hd : 0 < dailyConsumption) :
    ((processParsed name isResting previousSupplies dailyConsumption totalCarried
        carryingCapacity raws).message.variant = Variant.zeroSupplies ↔
      isResting = false ∧ (previousSupplies = 0 ∨
        (transition isResting previousSupplies dailyConsumption).hitZeroToday = true)) ∧
    ((processParsed name isResting previousSupplies dailyConsumption totalCarried
        carryingCapacity raws).message.variant = Variant.normal →
      (processParsed name isResting previousSupplies dailyConsumption totalCarried
        carryingCapacity raws).message.displayName =
        name ++ (if isResting then " (Resting)" else "")) ∧
    (isResting = true → previousSupplies = 0 →
      (processParsed name isResting previousSupplies dailyConsumption totalCarried
        carryingCapacity raws).message.variant = Variant.normal) := by
  cases isResting
  · by_cases hz : previousSupplies = 0
    · subst hz
      simp [processParsed, transition]
    · have hp0 : 0 < previousSupplies := lt_of_le_of_ne hp (Ne.symm hz)
      by_cases hm : mathMax 0 (previousSupplies - dailyConsumption) = 0
      · simp [processParsed, transition, hz, hp0, hm]
      · simp [processParsed, transition, hz, hp0, hm]
  · simp [processParsed, transition]

/-- C4 witness at `isResting = true`, `previousSupplies = 0`
(the zero-variant suppression case). -/
theorem c4_variant_selection_witness :
    ((processParsed "A" true 0 5 10 20 noMetrics).message.variant = Variant.zeroSupplies ↔
      true = false ∧ ((0 : ℚ) = 0 ∨ (transition true 0 5).hitZeroToday = true)) ∧
    ((processParsed "A" true 0 5 10 20 noMetrics).message.variant = Variant.normal →
      (processParsed "A" true 0 5 10 20 noMetrics).message.displayName =
        "A" ++ (if true then " (Resting)" else "")) ∧
    (true = true → (0 : ℚ) = 0 →
      (processParsed "A" true 0 5 10 20 noMetrics).message.variant = Variant.normal) :=
  c4_variant_selection "A" true 0 5 10 20 noMetrics (by norm_num) (by norm_num)

/-- C7: the aggregator reports the adjusted carried total
`max(0, totalCarriedRaw - consumedToday)`, and `overCapacity` is true
iff that adjusted total strictly exceeds the capacity — equality is
not over capacity — in both the Normal and ZeroSupplies variants. -/
theorem c7_capacity_alert (name : String) (isResting : Bool)
    (previousSupplies dailyConsumption totalCarried carryingCapacity : ℚ)
    (raws : OptionalMetrics) :
    (processParsed name isResting previousSupplies dailyConsumption totalCarried
        carryingCapacity raws).message.totalCarried =
      max 0 (totalCarried -
        (transition isResting previousSupplies dailyConsumption).consumedToday) ∧
    ((processParsed name isResting previousSupplies dailyConsumption totalCarried
        carryingCapacity raws).message.overCapacity = true ↔
      (processParsed name isResting previousSupplies dailyConsumption totalCarried
        carryingCapacity raws).message.totalCarried > carryingCapacity) ∧
    ((processParsed name isResting previousSupplies dailyConsumption totalCarried
        carryingCapacity raws).message.totalCarried = carryingCapacity →
      (processParsed name isResting previousSupplies dailyConsumption totalCarried
        carryingCapacity raws).message.overCapacity = false) := by
  simp only [processParsed]
  by_cases hc : (!isResting &&
      ((transition isResting previousSupplies dailyConsumption).wasAlreadyZero ||
        (transition isResting previousSupplies dailyConsumption).hitZeroToday)) = true
  · rw [if_pos hc]
    refine ⟨by simp [mathMax_eq_max], by simp, ?_⟩
    intro h
    simp at h
    simp [h]
  · rw [if_neg hc]
    refine ⟨by simp [mathMax_eq_max], by simp, ?_⟩
    intro h
    simp at h
    simp [h]

/-- C7 witness at the equality boundary: adjusted carried `415`
against capacity `415` is not over capacity. -/
theorem c7_capacity_alert_witness :
    (processParsed "A" false 150 5 420 415 noMetrics).message.totalCarried =
      max 0 (420 - (transition false 150 5).consumedToday) ∧
    ((processParsed "A" false 150 5 420 415 noMetrics).message.overCapacity = true ↔
      (processParsed "A" false 150 5 420 415 noMetrics).message.totalCarried > 415) ∧
    ((processParsed "A" false 150 5 420 415 noMetrics).message.totalCarried = 415 →
      (processParsed "A" false 150 5 420 415 noMetrics).message.overCapacity = false) :=
  c7_capacity_alert "A" false 150 5 420 415 noMetrics

/-- C10: the supplies cell is written back (with `newSupplies`) iff
the entity is not resting and `previousSupplies` was not `0`;
otherwise no write occurs. -/
theorem c10_sheet_write (name : String) (isResting : Bool)
    (previousSupplies dailyConsumption totalCarried carryingCapacity : ℚ)
    (raws : OptionalMetrics) :
    ((processParsed name isResting previousSupplies dailyConsumption totalCarried
        carryingCapacity raws).sheetWrite =
      some ((transition isResting previousSupplies dailyConsumption).newSupplies) ↔
      isResting = false ∧ previousSupplies ≠ 0) ∧
    (isResting = true ∨ previousSupplies = 0 →
      (processParsed name isResting previousSupplies dailyConsumption totalCarried
        carryingCapacity raws).sheetWrite = none) := by
  cases isResting
  · by_cases hz : previousSupplies = 0
    · subst hz
      simp [processParsed, transition]
    · by_cases hp0 : 0 < previousSupplies
      · by_cases hm : mathMax 0 (previousSupplies - dailyConsumption) = 0
        · simp [processParsed, transition, hz, hp0, hm]
        · simp [processParsed, transition, hz, hp0, hm]
      · simp [processParsed, transition, hz, hp0]
  · simp [processParsed, transition]

/-- C10 witness: a non-resting entity with positive supplies gets its
cell written with the new value. -/
theorem c10_sheet_write_witness :
    ((processParsed "A" false 150 5 420 400 noMetrics).sheetWrite =
      some ((transition false 150 5).newSupplies) ↔
      false = false ∧ (150 : ℚ) ≠ 0) ∧
    (false = true ∨ (150 : ℚ) = 0 →
      (processParsed "A" false 150 5 420 400 noMetrics).sheetWrite = none) :=
  c10_sheet_write "A" false 150 5 420 400 noMetrics

theorem parseNumericValue_error_eq (v : RawValue) (e : PipelineError)
    (h : parseNumericValue v = Except.error e) :
    e = PipelineError.invalidNumericValue := by
  cases v with
  | num q => simp [parseNumericValue] at h
  | str s =>
    simp only [parseNumericValue] at h
    cases hj : jsParseFloat (stripCommas s) <;> rw [hj] at h <;> simp_all
  | boolean b =>
    simp [parseNumericValue] at h
    exact h.symm

theorem processParsed_metrics (name : String) (isResting : Bool)
    (p d tc cc : ℚ) (raws : OptionalMetrics) :
    (processParsed name isResting p d tc cc raws).message.metrics =
      { ownedAndCarriedLoot := coerceOptionalMetric raws.ownedAndCarriedLoot
        paidAndCarriedLoot := coerceOptionalMetric raws.paidAndCarriedLoot
        currentMorale := raws.currentMorale
        restingMorale := raws.restingMorale
        armyLength := coerceOptionalMetric raws.armyLength
        effectiveArmySize := coerceOptionalMetric raws.effectiveArmySize
        forcedMarchDays := coerceOptionalMetric raws.forcedMarchDays
        shippingStatus := raws.shippingStatus
        supplyShipsCount := coerceOptionalMetric raws.supplyShipsCount } := by
  simp only [processParsed]
  by_cases hc : (!isResting && ((transition isResting p d).wasAlreadyZero ||
      (transition isResting p d).hitZeroToday)) = true
  · rw [if_pos hc]
  · rw [if_neg hc]

theorem processEntity_error_indep (name : String) (a b c dd r : Option RawValue)
    (m1 m2 : OptionalMetrics) (e : PipelineError) :
    processEntity name ⟨a, b, c, dd, r, m1⟩ = Except.error e ↔
      processEntity name ⟨a, b, c, dd, r, m2⟩ = Except.error e := by
  cases a with
  | none => simp [processEntity]
  | some cs =>
  cases b with
  | none => simp [processEntity]
  | some dc =>
  cases c with
  | none => simp [processEntity]
  | some tc =>
  cases dd with
  | none => simp [processEntity]
  | some cc =>
  cases hcs : parseNumericValue cs with
  | error e1 => simp [processEntity, hcs]
  | ok q1 =>
  cases hdc : parseNumericValue dc with
  | error e2 => simp [processEntity, hcs, hdc]
  | ok q2 =>
  cases htc : parseNumericValue tc with
  | error e3 => simp [processEntity, hcs, hdc, htc]
  | ok q3 =>
  cases hcc : parseNumericValue cc with
  | error e4 => simp [processEntity, hcs, hdc, htc, hcc]
  | ok q4 =>
  by_cases hq : q2 ≤ 0 <;> simp [processEntity, hcs, hdc, htc, hcc, hq]

/-- C8: the pipeline aborts with `MissingCellData` exactly when a
required cell is absent, with `InvalidNumericValue` exactly when all
four required cells are present but some value does not parse as a
number after stripping comma separators, and with
`NonPositiveConsumption` exactly when all parse and the parsed daily
consumption is `≤ 0`; and each entity of a batch is processed
independently, so a failure aborts only that entity. -/
theorem c8_error_taxonomy (name : String) (inp : EntityInput) :
    (processEntity name inp = Except.error PipelineError.missingCellData ↔
      inp.currentSuppliesCell = none ∨ inp.dailyConsumptionCell = none ∨
      inp.totalCarriedCell = none ∨ inp.currentCarryingCapacityCell = none) ∧
    (processEntity name inp = Except.error PipelineError.invalidNumericValue ↔
      ∃ cs dc tc cc,
        inp.currentSuppliesCell = some cs ∧ inp.dailyConsumptionCell = some dc ∧
        inp.totalCarriedCell = some tc ∧ inp.currentCarryingCapacityCell = some cc ∧
        (parseNumericValue cs = Except.error PipelineError.invalidNumericValue ∨
         parseNumericValue dc = Except.error PipelineError.invalidNumericValue ∨
         parseNumericValue tc = Except.error PipelineError.invalidNumericValue ∨
         parseNumericValue cc = Except.error PipelineError.invalidNumericValue)) ∧
    (processEntity name inp = Except.error PipelineError.nonPositiveConsumption ↔
      ∃ cs dc tc cc q1 q2 q3 q4,
        inp.currentSuppliesCell = some cs ∧ inp.dailyConsumptionCell = some dc ∧
        inp.totalCarriedCell = some tc ∧ inp.currentCarryingCapacityCell = some cc ∧
        parseNumericValue cs = Except.ok q1 ∧ parseNumericValue dc = Except.ok q2 ∧
        parseNumericValue tc = Except.ok q3 ∧ parseNumericValue cc = Except.ok q4 ∧
        q2 ≤ 0) ∧
    (∀ (pre post : List (String × EntityInput)) (entry : String × EntityInput),
      processBatch (pre ++ entry :: post) =
        processBatch pre ++ (entry.1, processEntity entry.1 entry.2) :: processBatch post) := by
  obtain ⟨ocs, odc, otc, occ, orc, m⟩ := inp
  refine ⟨?_, ?_, ?_, fun pre post entry => by simp [processBatch]⟩
  all_goals
    cases ocs with
    | none => simp [processEntity]
    | some cs =>
    cases odc with
    | none => simp [processEntity]
    | some dc =>
    cases otc with
    | none => simp [processEntity]
    | some tc =>
    cases occ with
    | none => simp [processEntity]
    | some cc =>
    cases hcs : parseNumericValue cs with
    | error e1 =>
      have h1 := parseNumericValue_error_eq _ _ hcs
      subst h1
      simp [processEntity, hcs]
    | ok q1 =>
    cases hdc : parseNumericValue dc with
    | error e2 =>
      have h2 := parseNumericValue_error_eq _ _ hdc
      subst h2
      simp [processEntity, hcs, hdc]
    | ok q2 =>
    cases htc : parseNumericValue tc with
    | error e3 =>
      have h3 := parseNumericValue_error_eq _ _ htc
      subst h3
      simp [processEntity, hcs, hdc, htc]
    | ok q3 =>
    cases hcc : parseNumericValue cc with
    | error e4 =>
      have h4 := parseNumericValue_error_eq _ _ hcc
      subst h4
      simp [processEntity, hcs, hdc, htc, hcc]
    | ok q4 =>
    by_cases hq : q2 ≤ 0 <;> simp [processEntity, hcs, hdc, htc, hcc, hq]

/-- C8 witness: an entity whose daily-consumption cell is absent
aborts with `MissingCellData`. -/
theorem c8_error_taxonomy_witness :
    (processEntity "A"
        ⟨some (RawValue.num 10), none, some (RawValue.num 5), some (RawValue.num 7),
          none, noMetrics⟩ = Except.error PipelineError.missingCellData ↔
      some (RawValue.num 10) = none ∨ (none : Option RawValue) = none ∨
      some (RawValue.num 5) = none ∨ some (RawValue.num 7) = none) ∧
    (processEntity "A"
        ⟨some (RawValue.num 10), none, some (RawValue.num 5), some (RawValue.num 7),
          none, noMetrics⟩ = Except.error PipelineError.invalidNumericValue ↔
      ∃ cs dc tc cc,
        some (RawValue.num 10) = some cs ∧ (none : Option RawValue) = some dc ∧
        some (RawValue.num 5) = some tc ∧ some (RawValue.num 7) = some cc ∧
        (parseNumericValue cs = Except.error PipelineError.invalidNumericValue ∨
         parseNumericValue dc = Except.error PipelineError.invalidNumericValue ∨
         parseNumericValue tc = Except.error PipelineError.invalidNumericValue ∨
         parseNumericValue cc = Except.error PipelineError.invalidNumericValue)) ∧
    (processEntity "A"
        ⟨some (RawValue.num 10), none, some (RawValue.num 5), some (RawValue.num 7),
          none, noMetrics⟩ = Except.error PipelineError.nonPositiveConsumption ↔
      ∃ cs dc tc cc q1 q2 q3 q4,
        some (RawValue.num 10) = some cs ∧ (none : Option RawValue) = some dc ∧
        some (RawValue.num 5) = some tc ∧ some (RawValue.num 7) = some cc ∧
        parseNumericValue cs = Except.ok q1 ∧ parseNumericValue dc = Except.ok q2 ∧
        parseNumericValue tc = Except.ok q3 ∧ parseNumericValue cc = Except.ok q4 ∧
        q2 ≤ 0) ∧
    (∀ (pre post : List (String × EntityInput)) (entry : String × EntityInput),
      processBatch (pre ++ entry :: post) =
        processBatch pre ++ (entry.1, processEntity entry.1 entry.2) :: processBatch post) :=
  c8_error_taxonomy "A"
    ⟨some (RawValue.num 10), none, some (RawValue.num 5), some (RawValue.num 7),
      none, noMetrics⟩

unseal Rat.sub Rat.add Rat.mul Rat.inv in
/-- C9 counterexample: the effective-army-size metric is NOT in the
claim's list of coerced metrics (loot owned, loot paid, army length,
forced-march days, supply-ship count), so by the claim it must be
passed through unchanged; but the code (lines 277–282 of
`src/index.js`) coerces it too: the raw string "1,234" comes out as
the number 1234, not as the original string. -/
theorem c9_counterexample :
    (processParsed "Army" false 10 5 50 100
        { ownedAndCarriedLoot := none
          paidAndCarriedLoot := none
          currentMorale := none
          restingMorale := none
          armyLength := none
          effectiveArmySize := some (RawValue.str "1,234")
          forcedMarchDays := none
          shippingStatus := none
          supplyShipsCount := none }).message.metrics.effectiveArmySize =
      some (RawValue.num 1234) ∧
    ¬ (processParsed "Army" false 10 5 50 100
        { ownedAndCarriedLoot := none
          paidAndCarriedLoot := none
          currentMorale := none
          restingMorale := none
          armyLength := none
          effectiveArmySize := some (RawValue.str "1,234")
          forcedMarchDays := none
          shippingStatus := none
          supplyShipsCount := none }).message.metrics.effectiveArmySize =
      some (RawValue.str "1,234") := by
  decide

/-- C9 amended: six optional metrics — loot owned, loot paid, army
length, effective army size, forced-march days and supply-ship
count — are run through the permissive numeric coercion, while
current morale, resting morale and shipping status are passed through
unchanged.  The coercion turns a value into a number only when the
value is a non-empty string whose comma-stripped form parses (numbers
stay numbers, booleans and unparsable or empty strings pass through),
an absent metric stays absent, and whether the pipeline errors is
independent of the optional metrics, so an absent metric never
triggers an error. -/
theorem c9_optional_metrics (name : String) (isResting : Bool)
    (p d tc cc : ℚ) (raws : OptionalMetrics) :
    ((processParsed name isResting p d tc cc raws).message.metrics.currentMorale =
        raws.currentMorale ∧
     (processParsed name isResting p d tc cc raws).message.metrics.restingMorale =
        raws.restingMorale ∧
     (processParsed name isResting p d tc cc raws).message.metrics.shippingStatus =
        raws.shippingStatus) ∧
    ((processParsed name isResting p d tc cc raws).message.metrics.ownedAndCarriedLoot =
        coerceOptionalMetric raws.ownedAndCarriedLoot ∧
     (processParsed name isResting p d tc cc raws).message.metrics.paidAndCarriedLoot =
        coerceOptionalMetric raws.paidAndCarriedLoot ∧
     (processParsed name isResting p d tc cc raws).message.metrics.armyLength =
        coerceOptionalMetric raws.armyLength ∧
     (processParsed name isResting p d tc cc raws).message.metrics.effectiveArmySize =
        coerceOptionalMetric raws.effectiveArmySize ∧
     (processParsed name isResting p d tc cc raws).message.metrics.forcedMarchDays =
        coerceOptionalMetric raws.forcedMarchDays ∧
     (processParsed name isResting p d tc cc raws).message.metrics.supplyShipsCount =
        coerceOptionalMetric raws.supplyShipsCount) ∧
    coerceOptionalMetric none = none ∧
    (∀ q : ℚ, coerceOptionalMetric (some (RawValue.num q)) = some (RawValue.num q)) ∧
    (∀ b : Bool, coerceOptionalMetric (some (RawValue.boolean b)) =
        some (RawValue.boolean b)) ∧
    (∀ (s : String) (q : ℚ), s ≠ "" → jsParseFloat (stripCommas s) = some q →
        coerceOptionalMetric (some (RawValue.str s)) = some (RawValue.num q)) ∧
    (∀ s : String, jsParseFloat (stripCommas s) = none →
        coerceOptionalMetric (some (RawValue.str s)) = some (RawValue.str s)) ∧
    (∀ (a b c dd r : Option RawValue) (m1 m2 : OptionalMetrics) (e : PipelineError),
        processEntity name ⟨a, b, c, dd, r, m1⟩ = Except.error e ↔
        processEntity name ⟨a, b, c, dd, r, m2⟩ = Except.error e) := by
  refine ⟨⟨?_, ?_, ?_⟩, ⟨?_, ?_, ?_, ?_, ?_, ?_⟩, rfl, fun q => rfl, fun b => rfl,
      ?_, ?_, fun a b c dd r m1 m2 e => processEntity_error_indep name a b c dd r m1 m2 e⟩
  · rw [processParsed_metrics]
  · rw [processParsed_metrics]
  · rw [processParsed_metrics]
  · rw [processParsed_metrics]
  · rw [processParsed_metrics]
  · rw [processParsed_metrics]
  · rw [processParsed_metrics]
  · rw [processParsed_metrics]
  · rw [processParsed_metrics]
  · intro s q hs hq
    simp [coerceOptionalMetric, hs, hq]
  · intro s hn
    by_cases hs : s = ""
    · simp [coerceOptionalMetric, hs]
    · simp [coerceOptionalMetric, hs, hn]

/-- C9 amended witness at a concrete metric set: a numeric-string
effective army size is coerced, a free-text shipping status passes
through, and a missing-cell entity errors identically for any
metrics. -/
theorem c9_optional_metrics_witness :
    (((processParsed "A" false 10 5 50 100 noMetrics).message.metrics.currentMorale =
        noMetrics.currentMorale ∧
      (processParsed "A" false 10 5 50 100 noMetrics).message.metrics.restingMorale =
        noMetrics.restingMorale ∧
      (processParsed "A" false 10 5 50 100 noMetrics).message.metrics.shippingStatus =
        noMetrics.shippingStatus) ∧
     ((processParsed "A" false 10 5 50 100 noMetrics).message.metrics.ownedAndCarriedLoot =
        coerceOptionalMetric noMetrics.ownedAndCarriedLoot ∧
      (processParsed "A" false 10 5 50 100 noMetrics).message.metrics.paidAndCarriedLoot =
        coerceOptionalMetric noMetrics.paidAndCarriedLoot ∧
      (processParsed "A" false 10 5 50 100 noMetrics).message.metrics.armyLength =
        coerceOptionalMetric noMetrics.armyLength ∧
      (processParsed "A" false 10 5 50 100 noMetrics).message.metrics.effectiveArmySize =
        coerceOptionalMetric noMetrics.effectiveArmySize ∧
      (processParsed "A" false 10 5 50 100 noMetrics).message.metrics.forcedMarchDays =
        coerceOptionalMetric noMetrics.forcedMarchDays ∧
      (processParsed "A" false 10 5 50 100 noMetrics).message.metrics.supplyShipsCount =
        coerceOptionalMetric noMetrics.supplyShipsCount) ∧
     coerceOptionalMetric none = none ∧
     (∀ q : ℚ, coerceOptionalMetric (some (RawValue.num q)) = some (RawValue.num q)) ∧
     (∀ b : Bool, coerceOptionalMetric (some (RawValue.boolean b)) =
        some (RawValue.boolean b)) ∧
     (∀ (s : String) (q : ℚ), s ≠ "" → jsParseFloat (stripCommas s) = some q →
        coerceOptionalMetric (some (RawValue.str s)) = some (RawValue.num q)) ∧
     (∀ s : String, jsParseFloat (stripCommas s) = none →
        coerceOptionalMetric (some (RawValue.str s)) = some (RawValue.str s)) ∧
     (∀ (a b c dd r : Option RawValue) (m1 m2 : OptionalMetrics) (e : PipelineError),
        processEntity "A" ⟨a, b, c, dd, r, m1⟩ = Except.error e ↔
        processEntity "A" ⟨a, b, c, dd, r, m2⟩ = Except.error e)) :=
  c9_optional_metrics "A" false 10 5 50 100 noMetrics

end SupplyBot


